import Mathlib

/-!
Verification of the Entitlement & Token Ledger subsystem of the
wedding-planner backend, shallowly embedded from
`app/models/payment_token.py`, `app/models/user.py` and
`app/services/watermark_service.py`.

Conventions of the embedding:
- Python `datetime` values are abstract timestamps, modelled as `Nat`;
  every call of `datetime.utcnow()` becomes an explicit `now : Nat`
  argument of the method that performs it.
- Python integers are `Int`; nullable columns are `Option`.
- A method that mutates `self` becomes a function returning the new
  record; a method that can raise becomes `Except TokenError _`, where
  `TokenError.invalidTokenState` stands for the `ValueError` raised by
  `use_token` (named `InvalidTokenState` in the error taxonomy).
-/

/-- The `TokenStatus` enum of `payment_token.py`. -/
inductive TokenStatus where
  | unused
  | used
  | refunded
  | expired
deriving DecidableEq, Repr

/-- The `PaymentStatus` enum of `payment_token.py`. -/
inductive PaymentStatus where
  | pending
  | completed
  | failed
  | refunded
deriving DecidableEq, Repr

/-- The `ValueError("No uses remaining on this token")` raised by
`PaymentToken.use_token`, i.e. the `InvalidTokenState` error of the
taxonomy. -/
inductive TokenError where
  | invalidTokenState
deriving DecidableEq, Repr

/-- The columns of the `payment_tokens` table that the ledger methods
read or write (`payment_token.py`). -/
structure PaymentToken where
  template_id : Int
  payment_status : PaymentStatus
  status : TokenStatus
  uses_total : Int
  uses_remaining : Int
  used_at : Option Nat
  last_used_at : Option Nat
  refund_id : Option String
  refunded_at : Option Nat
  refund_reason : Option String
  expires_at : Option Nat
deriving DecidableEq, Repr

/-- Python `PaymentToken.can_be_used`: completed payment, status neither
refunded nor expired, and a positive remaining-use count.  Note that
the Python method reads no clock and never looks at `expires_at`. -/
def PaymentToken.can_be_used (t : PaymentToken) : Bool :=
  t.payment_status == PaymentStatus.completed &&
  t.status != TokenStatus.refunded &&
  t.status != TokenStatus.expired &&
  t.uses_remaining > 0

/-- Python `PaymentToken.is_available` property: delegates to `can_be_used`. -/
def PaymentToken.is_available (t : PaymentToken) : Bool :=
  t.can_be_used

/-- Python `PaymentToken.use_token`: raises when `uses_remaining <= 0`,
otherwise stamps `used_at` on first use, decrements `uses_remaining`,
stamps `last_used_at`, and flips `status` to `used` when the count
reaches 0.  The guard is the only check: `status` is not consulted. -/
def PaymentToken.use_token (t : PaymentToken) (now : Nat) :
    Except TokenError PaymentToken :=
  if t.uses_remaining ≤ 0 then
    Except.error TokenError.invalidTokenState
  else
    let r := t.uses_remaining - 1
    Except.ok { t with
      used_at := some (t.used_at.getD now)
      uses_remaining := r
      last_used_at := some now
      status := if r = 0 then TokenStatus.used else t.status }

/-- Python `PaymentToken.mark_as_refunded`: unconditionally overwrites the
refund fields; there is no check of the current status. -/
def PaymentToken.mark_as_refunded (t : PaymentToken)
    (rid reason : String) (now : Nat) : PaymentToken :=
  { t with
    status := TokenStatus.refunded
    payment_status := PaymentStatus.refunded
    refund_id := some rid
    refund_reason := some reason
    refunded_at := some now }

/-- A ledger operation on one token: one `use_token` call or one
`mark_as_refunded` call, each carrying the clock value it observes. -/
inductive LedgerOp where
  | consume (now : Nat)
  | refund (rid reason : String) (now : Nat)
deriving DecidableEq, Repr

/-- Apply one ledger operation; a `use_token` call that raises leaves
the row unchanged (the exception aborts before any assignment). -/
def applyOp (t : PaymentToken) : LedgerOp → PaymentToken
  | LedgerOp.consume now => ((t.use_token now).toOption).getD t
  | LedgerOp.refund rid reason now => t.mark_as_refunded rid reason now

/-- Apply a sequence of ledger operations left to right. -/
def applySeq (t : PaymentToken) : List LedgerOp → PaymentToken
  | [] => t
  | op :: ops => applySeq (applyOp t op) ops

/-- The per-user fields of `users` that the entitlement helpers read
(`user.py`), plus the token relationship. -/
structure User where
  free_credits_remaining : Int
  payment_tokens : List PaymentToken
deriving Repr

/-- Python `User.can_generate_with_free_template`: always `True` (the legacy
credit check is commented out in the source). -/
def User.can_generate_with_free_template (_u : User) : Bool :=
  true

/-- Python `User.deduct_free_credit`: returns `True` and assigns nothing, so
the resulting user record is the receiver unchanged. -/
def User.deduct_free_credit (u : User) : Bool × User :=
  (true, u)

/-- Python `User.get_unused_token_for_template`: `next(...)` over the token
list, i.e. the first token of the list matching the template and
passing `can_be_used`, `None` when no token does. -/
def User.get_unused_token_for_template (u : User) (tid : Int) :
    Option PaymentToken :=
  u.payment_tokens.find? fun tok =>
    tok.template_id == tid && tok.can_be_used

/-- Python `User.can_generate_with_paid_template`: the same `next(...)` scan,
returning whether it found a token. -/
def User.can_generate_with_paid_template (u : User) (tid : Int) : Bool :=
  (u.payment_tokens.find? fun tok =>
    tok.template_id == tid && tok.can_be_used).isSome

/-- The IEEE-754 double closest to the literal `0.05` of
`WatermarkService.LOGO_SIZE_PERCENT`, as the exact fraction
`LOGO_SIZE_PERCENT_NUM / LOGO_SIZE_PERCENT_DEN`. -/
def LOGO_SIZE_PERCENT_NUM : Nat := 3602879701896397

/-- Denominator (2 ^ 56) of the exact value of the double `0.05`. -/
def LOGO_SIZE_PERCENT_DEN : Nat := 72057594037927936

/-- Python `WatermarkService.PADDING`. -/
def PADDING : Nat := 25

/-- The geometry `WatermarkService.add_watermark` computes for the
logo: its resized dimensions and paste position. -/
structure LogoPlacement where
  logo_width : Nat
  logo_height : Nat
  logo_x : Int
  logo_y : Int
deriving DecidableEq, Repr

/-- The size-and-position arithmetic of
`WatermarkService.add_watermark` (lines 86–99): `logo_height` is
`int(height * LOGO_SIZE_PERCENT)`, `logo_width` is
`int(logo_height * (logo.width / logo.height))`, and the paste corner
is `(width - logo_width - PADDING, height - logo_height - PADDING)`.
The float products are modelled by exact rational arithmetic (floor of
the exact value); `width`, `height` are the main image's size and
`lw`, `lh` the logo asset's source size. -/
def add_watermark_placement (width height lw lh : Nat) : LogoPlacement :=
  let logo_height := height * LOGO_SIZE_PERCENT_NUM / LOGO_SIZE_PERCENT_DEN
  let logo_width := logo_height * lw / lh
  { logo_width := logo_width
    logo_height := logo_height
    logo_x := (width : Int) - logo_width - PADDING
    logo_y := (height : Int) - logo_height - PADDING }

/-- C1: `can_be_used` (and the `is_available` alias) is true exactly
when the payment is completed, the status is neither refunded nor
expired, and `uses_remaining` is positive. -/
theorem can_be_used_iff (t : PaymentToken) :
    (t.can_be_used = true ↔
      (t.payment_status = PaymentStatus.completed ∧
       t.status ≠ TokenStatus.refunded ∧
       t.status ≠ TokenStatus.expired ∧
       0 < t.uses_remaining)) ∧
    t.is_available = t.can_be_used := by
  constructor
  · simp [PaymentToken.can_be_used, and_assoc]
  · rfl

/-- A completed, unused token with one use left (concrete witness data). -/
def tokOneUse : PaymentToken :=
  { template_id := 7
    payment_status := PaymentStatus.completed
    status := TokenStatus.unused
    uses_total := 2
    uses_remaining := 1
    used_at := some 3
    last_used_at := some 3
    refund_id := none
    refunded_at := none
    refund_reason := none
    expires_at := none }

/-- A refunded token that still has two uses recorded (concrete data for
the refund-terminality claims). -/
def tokRefunded2 : PaymentToken :=
  { template_id := 7
    payment_status := PaymentStatus.refunded
    status := TokenStatus.refunded
    uses_total := 2
    uses_remaining := 2
    used_at := none
    last_used_at := none
    refund_id := some "rf_1"
    refunded_at := some 4
    refund_reason := some "requested"
    expires_at := none }

/-- A completed token whose `expires_at` (5) lies before the check time
used in the expiry claims (10), with `status` never transitioned. -/
def tokExpiredPast : PaymentToken :=
  { template_id := 7
    payment_status := PaymentStatus.completed
    status := TokenStatus.unused
    uses_total := 2
    uses_remaining := 1
    used_at := none
    last_used_at := none
    refund_id := none
    refunded_at := none
    refund_reason := none
    expires_at := some 5 }

/-- C2: a token with one use left is consumed to `uses_remaining = 0`
and `status = used` in a single `use_token` call; a second call fails
with the `InvalidTokenState` error, and (the `applyOp` conjunct) the
failed call leaves every field unchanged. -/
theorem use_token_last_use (t : PaymentToken) (n1 n2 : Nat)
    (h : t.uses_remaining = 1) :
    ∃ t', t.use_token n1 = Except.ok t' ∧
      t'.uses_remaining = 0 ∧ t'.status = TokenStatus.used ∧
      t'.use_token n2 = Except.error TokenError.invalidTokenState ∧
      applyOp t' (LedgerOp.consume n2) = t' := by
  refine ⟨{ t with
      used_at := some (t.used_at.getD n1)
      uses_remaining := 0
      last_used_at := some n1
      status := TokenStatus.used }, ?_, rfl, rfl, ?_, ?_⟩
  · simp [PaymentToken.use_token, h]
  · simp [PaymentToken.use_token]
  · simp [applyOp, PaymentToken.use_token, Except.toOption]

/-- Witness for C2 at the concrete token `tokOneUse`. -/
theorem use_token_last_use_witness :
    tokOneUse.uses_remaining = 1 ∧
    (∃ t', tokOneUse.use_token 8 = Except.ok t' ∧
      t'.uses_remaining = 0 ∧ t'.status = TokenStatus.used ∧
      t'.use_token 9 = Except.error TokenError.invalidTokenState ∧
      applyOp t' (LedgerOp.consume 9) = t') :=
  ⟨rfl, use_token_last_use tokOneUse 8 9 rfl⟩

/-- C3 counterexample: on the refunded token `tokRefunded2`, which has
`uses_remaining = 2`, `use_token` does not fail: it succeeds and
decrements the count to 1, because the method checks only
`uses_remaining` and never the refunded status. -/
theorem use_token_refunded_counterexample :
    tokRefunded2.status = TokenStatus.refunded ∧
    tokRefunded2.uses_remaining = 2 ∧
    ∃ t', tokRefunded2.use_token 9 = Except.ok t' ∧
      t'.uses_remaining = 1 :=
  ⟨rfl, rfl, _, rfl, rfl⟩

/-- C3 amended: refund terminality is enforced by the usability
predicate, not by `use_token`: every refunded token fails
`can_be_used` (so the entitlement flow never selects it for
consumption), while a direct `use_token` call on a refunded token with
a positive count succeeds and decrements. -/
theorem refunded_terminal_via_usability (t : PaymentToken) (now : Nat)
    (h : t.status = TokenStatus.refunded) :
    t.can_be_used = false ∧
    (0 < t.uses_remaining →
      ∃ t', t.use_token now = Except.ok t' ∧
        t'.uses_remaining = t.uses_remaining - 1) := by
  constructor
  · simp [PaymentToken.can_be_used, h]
  · intro hpos
    have hng : ¬ t.uses_remaining ≤ 0 := by omega
    refine ⟨{ t with
        used_at := some (t.used_at.getD now)
        uses_remaining := t.uses_remaining - 1
        last_used_at := some now
        status := if t.uses_remaining - 1 = 0 then TokenStatus.used
                  else t.status }, ?_, rfl⟩
    simp [PaymentToken.use_token, hng]

/-- Witness for the amended C3 at the concrete token `tokRefunded2`. -/
theorem refunded_terminal_via_usability_witness :
    tokRefunded2.status = TokenStatus.refunded ∧
    (tokRefunded2.can_be_used = false ∧
      (0 < tokRefunded2.uses_remaining →
        ∃ t', tokRefunded2.use_token 9 = Except.ok t' ∧
          t'.uses_remaining = tokRefunded2.uses_remaining - 1)) :=
  ⟨rfl, refunded_terminal_via_usability tokRefunded2 9 rfl⟩

/-- C4 counterexample: `tokExpiredPast` has `expires_at = 5`, in the
past of the check time 10, and its status was never transitioned to
`expired`; yet `can_be_used` returns `true` — the method reads no
clock and ignores `expires_at` entirely. -/
theorem expiry_not_checked_counterexample :
    tokExpiredPast.expires_at = some 5 ∧ (5 : Nat) < 10 ∧
    tokExpiredPast.status ≠ TokenStatus.expired ∧
    tokExpiredPast.can_be_used = true := by
  refine ⟨rfl, by norm_num, by decide, rfl⟩

/-- C4 amended: usability is computed from the stored status alone:
`can_be_used` is invariant under any change of `expires_at`, and only
an explicit transition of `status` to `expired` makes it false. -/
theorem can_be_used_ignores_expiry (t : PaymentToken) (e : Option Nat) :
    ({ t with expires_at := e } : PaymentToken).can_be_used
      = t.can_be_used ∧
    ({ t with status := TokenStatus.expired } : PaymentToken).can_be_used
      = false := by
  constructor
  · rfl
  · simp [PaymentToken.can_be_used]

/-- Helper: once `payment_status` is `refunded`, no ledger operation
restores it — `use_token` never writes `payment_status` and
`mark_as_refunded` rewrites it to `refunded`. -/
theorem applyOp_keeps_payment_refunded (t : PaymentToken) (op : LedgerOp)
    (h : t.payment_status = PaymentStatus.refunded) :
    (applyOp t op).payment_status = PaymentStatus.refunded := by
  cases op with
  | consume now =>
    by_cases hr : t.uses_remaining ≤ 0
    · simp [applyOp, PaymentToken.use_token, hr, Except.toOption, h]
    · simp [applyOp, PaymentToken.use_token, hr, Except.toOption, h]
  | refund rid reason now =>
    simp [applyOp, PaymentToken.mark_as_refunded]

/-- Helper: `applyOp_keeps_payment_refunded` lifted to sequences. -/
theorem applySeq_keeps_payment_refunded (ops : List LedgerOp) :
    ∀ t : PaymentToken, t.payment_status = PaymentStatus.refunded →
      (applySeq t ops).payment_status = PaymentStatus.refunded := by
  induction ops with
  | nil => exact fun t h => h
  | cons op ops ih =>
    exact fun t h => ih (applyOp t op) (applyOp_keeps_payment_refunded t op h)

/-- Helper: a token whose payment is refunded is never usable. -/
theorem payment_refunded_not_usable (t : PaymentToken)
    (h : t.payment_status = PaymentStatus.refunded) :
    t.can_be_used = false := by
  simp [PaymentToken.can_be_used, h]

/-- C5: `mark_as_refunded` at any `uses_remaining` value sets
`status = refunded`, `payment_status = refunded`, stamps the refund
id, reason and timestamp, and every subsequent usability check — even
after any further sequence of ledger operations — returns false. -/
theorem mark_as_refunded_terminal (t : PaymentToken)
    (rid reason : String) (now : Nat) (ops : List LedgerOp) :
    ((t.mark_as_refunded rid reason now).status = TokenStatus.refunded ∧
     (t.mark_as_refunded rid reason now).payment_status
        = PaymentStatus.refunded ∧
     (t.mark_as_refunded rid reason now).refund_id = some rid ∧
     (t.mark_as_refunded rid reason now).refund_reason = some reason ∧
     (t.mark_as_refunded rid reason now).refunded_at = some now) ∧
    (t.mark_as_refunded rid reason now).can_be_used = false ∧
    (applySeq (t.mark_as_refunded rid reason now) ops).can_be_used
      = false := by
  refine ⟨⟨rfl, rfl, rfl, rfl, rfl⟩, rfl, ?_⟩
  exact payment_refunded_not_usable _
    (applySeq_keeps_payment_refunded ops _ rfl)

/-- C6: free-template entitlement is unconditional and independent of
the legacy `free_credits_remaining` counter: `can_generate_with_free_template`
is `true` for every counter value (including 0), `deduct_free_credit`
returns `true` and leaves the user — in particular the counter —
unchanged, and the paid-template check does not read the counter
either. -/
theorem free_template_unlimited (u : User) (n tid : Int) :
    u.can_generate_with_free_template = true ∧
    u.deduct_free_credit = (true, u) ∧
    ({ u with free_credits_remaining := n } :
        User).can_generate_with_free_template = true ∧
    ({ u with free_credits_remaining := n } :
        User).deduct_free_credit.2.free_credits_remaining = n ∧
    ({ u with free_credits_remaining := n } :
        User).can_generate_with_paid_template tid
      = u.can_generate_with_paid_template tid :=
  ⟨rfl, rfl, rfl, rfl, rfl⟩

/-- Helper: `List.find?` returns the head of the filtered list, i.e.
the first element satisfying the predicate. -/
theorem find?_eq_head?_of_filter {α : Type} (p : α → Bool) (l : List α) :
    l.find? p = (l.filter p).head? := by
  induction l with
  | nil => rfl
  | cons x xs ih =>
    by_cases h : p x
    · rw [List.find?_cons_of_pos _ h, List.filter_cons_of_pos h,
        List.head?_cons]
    · rw [List.find?_cons_of_neg _ h, List.filter_cons_of_neg h, ih]

/-- A fully consumed token for template 7 (first in the demo user's
list). -/
def tokZeroUses : PaymentToken :=
  { template_id := 7
    payment_status := PaymentStatus.completed
    status := TokenStatus.used
    uses_total := 2
    uses_remaining := 0
    used_at := some 1
    last_used_at := some 2
    refund_id := none
    refunded_at := none
    refund_reason := none
    expires_at := none }

/-- A completed token for template 7 with two uses left (second in the
demo user's list). -/
def tokTwoUses : PaymentToken :=
  { template_id := 7
    payment_status := PaymentStatus.completed
    status := TokenStatus.unused
    uses_total := 2
    uses_remaining := 2
    used_at := none
    last_used_at := none
    refund_id := none
    refunded_at := none
    refund_reason := none
    expires_at := none }

/-- A user holding, for template 7, first a token with no uses left and
then one with two uses left. -/
def demoUser : User :=
  { free_credits_remaining := 0
    payment_tokens := [tokZeroUses, tokTwoUses] }

/-- C7: token selection returns the first token of the user's list for
the template that passes `can_be_used` (the head of the filtered
list), denial is exactly the none case, and on the demo user holding
tokens with 0 and 2 uses for template 7 it selects the one with 2
uses. -/
theorem token_selection_first_usable (u : User) (tid : Int) :
    u.get_unused_token_for_template tid =
      (u.payment_tokens.filter fun tok =>
        tok.template_id == tid && tok.can_be_used).head? ∧
    u.can_generate_with_paid_template tid
      = (u.get_unused_token_for_template tid).isSome ∧
    demoUser.get_unused_token_for_template 7 = some tokTwoUses ∧
    tokZeroUses.uses_remaining = 0 ∧ tokTwoUses.uses_remaining = 2 := by
  refine ⟨find?_eq_head?_of_filter _ _, rfl, ?_, rfl, rfl⟩
  rfl

/-- Helper: one ledger operation preserves
`0 ≤ uses_remaining ≤ uses_total`: a failed `use_token` changes
nothing, a successful one decrements a positive count by one and keeps
`uses_total`, and `mark_as_refunded` touches neither field. -/
theorem applyOp_preserves_bounds (t : PaymentToken) (op : LedgerOp)
    (h0 : 0 ≤ t.uses_remaining) (h1 : t.uses_remaining ≤ t.uses_total) :
    0 ≤ (applyOp t op).uses_remaining ∧
      (applyOp t op).uses_remaining ≤ (applyOp t op).uses_total := by
  cases op with
  | consume now =>
    by_cases hr : t.uses_remaining ≤ 0
    · simpa [applyOp, PaymentToken.use_token, hr, Except.toOption]
        using ⟨h0, h1⟩
    · simp [applyOp, PaymentToken.use_token, hr, Except.toOption]
      omega
  | refund rid reason now =>
    simpa [applyOp, PaymentToken.mark_as_refunded] using ⟨h0, h1⟩

/-- C8: the bounds `0 ≤ uses_remaining ≤ uses_total` are preserved by
every sequence of consume and refund operations. -/
theorem ledger_preserves_bounds (ops : List LedgerOp) (t : PaymentToken)
    (h0 : 0 ≤ t.uses_remaining) (h1 : t.uses_remaining ≤ t.uses_total) :
    0 ≤ (applySeq t ops).uses_remaining ∧
      (applySeq t ops).uses_remaining ≤ (applySeq t ops).uses_total := by
  induction ops generalizing t with
  | nil => exact ⟨h0, h1⟩
  | cons op ops ih =>
    have h := applyOp_preserves_bounds t op h0 h1
    exact ih (applyOp t op) h.1 h.2

/-- A sample operation sequence: consume, refund, consume again. -/
def demoOps : List LedgerOp :=
  [LedgerOp.consume 1, LedgerOp.refund "rf_2" "quality" 2,
   LedgerOp.consume 3]

/-- Witness for C8 on the concrete token `tokTwoUses` and the sequence
`demoOps`. -/
theorem ledger_preserves_bounds_witness :
    ((0 : Int) ≤ tokTwoUses.uses_remaining ∧
      tokTwoUses.uses_remaining ≤ tokTwoUses.uses_total) ∧
    (0 ≤ (applySeq tokTwoUses demoOps).uses_remaining ∧
      (applySeq tokTwoUses demoOps).uses_remaining
        ≤ (applySeq tokTwoUses demoOps).uses_total) :=
  ⟨⟨by decide, by decide⟩,
    ledger_preserves_bounds demoOps tokTwoUses (by decide) (by decide)⟩

/-- C9: on a 1000×800 image the logo is resized to height
`int(800 * 0.05) = 40` with the width scaled by the logo's source
aspect ratio (floor of `40 * lw / lh`), and pasted at
`(1000 - logo_width - PADDING, 800 - logo_height - PADDING)`, i.e.
`logo_y = 735`. -/
theorem watermark_geometry_1000x800 (lw lh : Nat) (h : 0 < lh) :
    (add_watermark_placement 1000 800 lw lh).logo_height = 40 ∧
    (add_watermark_placement 1000 800 lw lh).logo_width
      = 40 * lw / lh ∧
    (add_watermark_placement 1000 800 lw lh).logo_x
      = 1000 - ((add_watermark_placement 1000 800 lw lh).logo_width : Int)
        - (PADDING : Int) ∧
    (add_watermark_placement 1000 800 lw lh).logo_y
      = 800 - 40 - (PADDING : Int) := by
  have hh : 800 * LOGO_SIZE_PERCENT_NUM / LOGO_SIZE_PERCENT_DEN = 40 := by
    decide
  refine ⟨hh, ?_, ?_, ?_⟩
  · simp only [add_watermark_placement, hh]
  · simp only [add_watermark_placement, hh]
    norm_num
  · simp only [add_watermark_placement, hh, PADDING]
    norm_num

/-- Witness for C9 with a 200×100 logo asset: height 40, width 80,
position (895, 735). -/
theorem watermark_geometry_1000x800_witness :
    (0 < 100 ∧
      ((add_watermark_placement 1000 800 200 100).logo_height = 40 ∧
       (add_watermark_placement 1000 800 200 100).logo_width
         = 40 * 200 / 100 ∧
       (add_watermark_placement 1000 800 200 100).logo_x
         = 1000 - ((add_watermark_placement 1000 800 200 100).logo_width :
             Int) - (PADDING : Int) ∧
       (add_watermark_placement 1000 800 200 100).logo_y
         = 800 - 40 - (PADDING : Int))) ∧
    (add_watermark_placement 1000 800 200 100).logo_x = 895 :=
  ⟨⟨by decide, watermark_geometry_1000x800 200 100 (by decide)⟩,
    by decide⟩

/-- C10: `mark_as_refunded` is total (no error path in the source) and
unconditional: called on an already-refunded token it silently
overwrites the refund metadata, so refunding twice equals a single
refund with the second call's arguments, whose id, reason and
timestamp replace the first call's. -/
theorem mark_as_refunded_unconditional (t : PaymentToken)
    (r1 s1 r2 s2 : String) (n1 n2 : Nat) :
    (t.mark_as_refunded r1 s1 n1).status = TokenStatus.refunded ∧
    ((t.mark_as_refunded r1 s1 n1).mark_as_refunded r2 s2 n2)
      = t.mark_as_refunded r2 s2 n2 ∧
    ((t.mark_as_refunded r1 s1 n1).mark_as_refunded r2 s2 n2).refund_id
      = some r2 ∧
    ((t.mark_as_refunded r1 s1 n1).mark_as_refunded r2 s2
        n2).refund_reason = some s2 ∧
    ((t.mark_as_refunded r1 s1 n1).mark_as_refunded r2 s2
        n2).refunded_at = some n2 :=
  ⟨rfl, rfl, rfl, rfl, rfl⟩
